import Mathlib

/-!
# Drift Bottle Core API — shallow embedding

A Lean model of `src/api_service.py`: a FastAPI service over MongoDB that
creates "bottle" records with atomically allocated integer ids, lets a
requester pick one random unpicked bottle not authored by themselves
(marking it picked), and counts unpicked bottles.  The MongoDB state is
modelled explicitly (`DB`); each HTTP handler becomes a pure function from
request data and state to a result (`Except` over HTTP status codes) and a
new state.  Randomness of `$sample` is modelled by an explicit choice
index; MongoDB's automatic `_id` assignment is modelled by a fresh-`oid`
counter.
-/

namespace DriftBottles

/-- An image inside a bottle (`Image`, src/api_service.py lines 34-37). -/
structure Image where
  type : String
  data : String
deriving DecidableEq

/-- Request body for creating a bottle (`BottleIn`, lines 39-45). -/
structure BottleIn where
  content : String
  images : List Image
  sender : String
  sender_id : String
  poke : Bool
deriving DecidableEq

/-- A bottle document as stored in MongoDB: the fields written by
`add_bottle` (lines 121-133) plus the storage-assigned `_id`
(modelled as `oid : Nat`). -/
structure BottleDoc where
  oid : Nat
  bottle_id : Nat
  content : String
  images : List Image
  sender : String
  sender_id : String
  picked : Bool
  timestamp : String
  poke : Bool
deriving DecidableEq

/-- Response model `BottleOut` (lines 47-56): exactly the declared output
fields, no storage `_id`. -/
structure BottleOut where
  bottle_id : Nat
  content : String
  images : List Image
  sender : String
  sender_id : String
  picked : Bool
  timestamp : String
  poke : Bool
deriving DecidableEq

/-- `BottleOut.from_mongo_dict` (lines 58-61): pydantic builds the model from
the document's declared fields; extra keys such as the storage `_id` are
ignored by the model constructor. -/
def BottleOut.from_mongo_dict (d : BottleDoc) : BottleOut :=
  { bottle_id := d.bottle_id, content := d.content, images := d.images,
    sender := d.sender, sender_id := d.sender_id, picked := d.picked,
    timestamp := d.timestamp, poke := d.poke }

/-- MongoDB state: the `counters` collection (assoc list `_id ↦ seq`, line 97),
the bottles collection in insertion order, and the next storage `_id` the
store will assign. -/
structure DB where
  counters : List (String × Nat)
  bottles : List BottleDoc
  nextOid : Nat
deriving DecidableEq

/-- Overwrite the `seq` field of the (first, hence unique by `_id`) counter
document named `name`; no-op if absent.  Helper for the `$inc` update. -/
def setSeq (name : String) (v : Nat) : List (String × Nat) → List (String × Nat)
  | [] => []
  | (k, w) :: rest => if k = name then (k, v) :: rest else (k, w) :: setSeq name v rest

/-- `get_next_sequence_value` (lines 93-104): `find_one_and_update` on the
`counters` collection with `$inc {seq: 1}`, `upsert=True`,
`ReturnDocument.AFTER`.  If the counter document exists its `seq` is
incremented and the new value returned; otherwise the document is created
with `seq = 1` (0 incremented) in the same operation and 1 is returned. -/
def get_next_sequence_value (name : String) (db : DB) : Nat × DB :=
  match db.counters.lookup name with
  | some v => (v + 1, { db with counters := setSeq name (v + 1) db.counters })
  | none => (1, { db with counters := (name, 1) :: db.counters })

/-- Current value of a sequence counter, 0 when the document is absent. -/
def curSeq (db : DB) (name : String) : Nat :=
  (db.counters.lookup name).getD 0

/-- `add_bottle` (lines 116-141): allocate `new_id` from the sequence
`"bottle_id"`, build the document with `picked = False` and the current
timestamp, and insert it (MongoDB assigns `_id`).  `insert_ok = false`
models the insert raising: the handler then returns HTTP 500, with the
sequence counter already advanced.  On success the response is
`BottleOut.from_mongo_dict` of the inserted document and the status is 201. -/
def add_bottle (b : BottleIn) (now : String) (insert_ok : Bool) (db : DB) :
    Except Nat BottleOut × DB :=
  let alloc := get_next_sequence_value "bottle_id" db
  let doc : BottleDoc :=
    { oid := alloc.2.nextOid, bottle_id := alloc.1, content := b.content,
      images := b.images, sender := b.sender, sender_id := b.sender_id,
      picked := false, timestamp := now, poke := b.poke }
  if insert_ok then
    (Except.ok (BottleOut.from_mongo_dict doc),
      { alloc.2 with bottles := alloc.2.bottles ++ [doc],
                     nextOid := alloc.2.nextOid + 1 })
  else
    (Except.error 500, alloc.2)

/-- The `$match` stage of the pick pipeline (line 156):
`{"picked": False, "sender_id": {"$ne": sender_id}}`. -/
def eligible (sender_id : String) (d : BottleDoc) : Bool :=
  !d.picked && d.sender_id != sender_id

/-- The `$sample {size: 1}` stage (line 157): one uniformly random document
of the matched set, modelled by an arbitrary choice index reduced modulo the
set's size; `none` exactly when the set is empty. -/
def sample1 (choice : Nat) (l : List BottleDoc) : Option BottleDoc :=
  l[choice % l.length]?

/-- `update_one({"_id": oid}, {"$set": {"picked": True}})` (lines 172-175):
set `picked := true` on the first (unique, since `_id` is a key) document
whose `_id` matches, unconditionally on its current `picked` value. -/
def update_one_set_picked (oid : Nat) : List BottleDoc → List BottleDoc
  | [] => []
  | d :: ds =>
      if d.oid = oid then { d with picked := true } :: ds
      else d :: update_one_set_picked oid ds

/-- `pick_random_bottle` (lines 149-186): run the match+sample pipeline; if
no document comes back raise HTTP 404 and leave the store untouched;
otherwise mark the sampled document picked by its `_id` and return the
pre-update snapshot via `BottleOut.from_mongo_dict`. -/
def pick_random_bottle (sender_id : String) (choice : Nat) (db : DB) :
    Except Nat BottleOut × DB :=
  match sample1 choice (db.bottles.filter (eligible sender_id)) with
  | none => (Except.error 404, db)
  | some doc =>
      (Except.ok (BottleOut.from_mongo_dict doc),
        { db with bottles := update_one_set_picked doc.oid db.bottles })

/-- `get_active_bottle_counts` (lines 193-206):
`count_documents({"picked": False})`. -/
def get_active_bottle_counts (db : DB) : Nat :=
  (db.bottles.filter (fun d => !d.picked)).length

/-- Python truthiness of an optional environment string: `not X` is true for
an unset variable (`None`) and for the empty string. -/
def truthy : Option String → Bool
  | none => false
  | some s => !s.isEmpty

/-- Module-load configuration validation (lines 14-21): `MONGO_URI` and
`DATABASE_NAME` are each tested and a `ValueError` raised when falsy;
`COLLECTION_NAME` is read (line 16) but never tested. -/
def checkConfig (mongo_uri database_name collection_name : Option String) :
    Except String Unit :=
  if !truthy mongo_uri then
    Except.error "MONGO_URI environment variable is not set."
  else if !truthy database_name then
    Except.error "DATABASE_NAME environment variable is not set."
  else
    Except.ok ()

/-- One client-visible operation of the service. -/
inductive Op where
  | add (b : BottleIn) (now : String) (insert_ok : Bool)
  | pick (sender_id : String) (choice : Nat)
  | alloc (name : String)
  | count

/-- Effect of one operation on the store state (`count` and the health check
are read-only). -/
def step (op : Op) (db : DB) : DB :=
  match op with
  | Op.add b now ok => (add_bottle b now ok db).2
  | Op.pick s c => (pick_random_bottle s c db).2
  | Op.alloc name => (get_next_sequence_value name db).2
  | Op.count => db

/-- The ids the Sequence Allocator assigns to a list of creation requests,
in issuance order (the same allocator call `add_bottle` makes, threaded
through the states the creations produce). -/
def assignedIds : List (BottleIn × String × Bool) → DB → List Nat
  | [], _ => []
  | (b, now, ok) :: rest, db =>
      (get_next_sequence_value "bottle_id" db).1 ::
        assignedIds rest (add_bottle b now ok db).2

/-- The externally visible id of a creation response, when one was produced. -/
def bidOf : Except Nat BottleOut → Option Nat
  | Except.ok o => some o.bottle_id
  | Except.error _ => none

/-- Remap every bottle's storage `_id`, leaving all declared fields alone. -/
def mapOids (f : Nat → Nat) (db : DB) : DB :=
  { db with bottles := db.bottles.map (fun d => { d with oid := f d.oid }) }

/-! ### Concrete fixtures used by the witness theorems -/

/-- A sample creation request. -/
def bIn1 : BottleIn :=
  { content := "hello", images := [], sender := "alice", sender_id := "u1",
    poke := false }

/-- The empty store. -/
def db0 : DB := { counters := [], bottles := [], nextOid := 0 }

/-- An unclaimed bottle sent by `u1`. -/
def bottleA : BottleDoc :=
  { oid := 0, bottle_id := 1, content := "hi", images := [], sender := "alice",
    sender_id := "u1", picked := false, timestamp := "2026-01-01 00:00:00",
    poke := false }

/-- An already-claimed bottle sent by `u2`. -/
def bottleP : BottleDoc :=
  { oid := 1, bottle_id := 2, content := "yo", images := [], sender := "bob",
    sender_id := "u2", picked := true, timestamp := "2026-01-02 00:00:00",
    poke := false }

/-- A store holding `bottleA` and `bottleP` with the counter at 2. -/
def db1 : DB :=
  { counters := [("bottle_id", 2)], bottles := [bottleA, bottleP], nextOid := 2 }

/-! ### Lemmas about the sequence counter -/

/-- `setSeq` really overwrites the looked-up value when the key is present. -/
theorem lookup_setSeq (name : String) (v : Nat) :
    ∀ l : List (String × Nat), (l.lookup name).isSome = true →
      (setSeq name v l).lookup name = some v := by
  intro l
  induction l with
  | nil => intro h; simp [List.lookup] at h
  | cons p rest ih =>
    intro h
    obtain ⟨k, w⟩ := p
    by_cases hk : k = name
    · subst hk
      simp [setSeq, List.lookup]
    · have hk' : (name == k) = false := by
        simp
        exact fun hc => hk hc.symm
      simp only [setSeq, if_neg hk, List.lookup, hk'] at h ⊢
      exact ih h

/-- The allocator returns one more than the current counter value (0 when the
counter document does not exist yet). -/
theorem get_next_fst (name : String) (db : DB) :
    (get_next_sequence_value name db).1 = curSeq db name + 1 := by
  unfold get_next_sequence_value curSeq
  cases h : db.counters.lookup name <;> simp [h]

/-- After an allocation the stored counter equals the returned value. -/
theorem get_next_lookup (name : String) (db : DB) :
    (get_next_sequence_value name db).2.counters.lookup name =
      some ((get_next_sequence_value name db).1) := by
  unfold get_next_sequence_value
  cases h : db.counters.lookup name with
  | none => simp [List.lookup]
  | some v =>
    simp
    exact lookup_setSeq name (v + 1) db.counters (by simp [h])

/-- One allocation advances the counter by exactly one. -/
theorem curSeq_get_next (name : String) (db : DB) :
    curSeq (get_next_sequence_value name db).2 name = curSeq db name + 1 := by
  have h1 := get_next_lookup name db
  have h2 := get_next_fst name db
  unfold curSeq at h2 ⊢
  rw [h1, Option.getD_some, h2]

/-- Allocation touches neither the bottles nor the ObjectId supply. -/
theorem get_next_state (name : String) (db : DB) :
    (get_next_sequence_value name db).2.bottles = db.bottles ∧
    (get_next_sequence_value name db).2.nextOid = db.nextOid := by
  unfold get_next_sequence_value
  cases h : db.counters.lookup name <;> simp

/-- A creation leaves the counters exactly as its inner allocation did,
whether or not the insert succeeds. -/
theorem add_bottle_counters (b : BottleIn) (now : String) (ok : Bool) (db : DB) :
    (add_bottle b now ok db).2.counters =
      (get_next_sequence_value "bottle_id" db).2.counters := by
  unfold add_bottle
  cases ok <;> simp

/-- Each creation request advances the `bottle_id` counter by one. -/
theorem curSeq_add_bottle (b : BottleIn) (now : String) (ok : Bool) (db : DB) :
    curSeq (add_bottle b now ok db).2 "bottle_id" = curSeq db "bottle_id" + 1 := by
  have h := curSeq_get_next "bottle_id" db
  unfold curSeq at h ⊢
  rw [add_bottle_counters]
  exact h

/-- Every id issued after state `db` exceeds the counter value at `db`. -/
theorem assignedIds_lt (reqs : List (BottleIn × String × Bool)) :
    ∀ db : DB, ∀ i ∈ assignedIds reqs db, curSeq db "bottle_id" < i := by
  induction reqs with
  | nil => intro db i hi; simp [assignedIds] at hi
  | cons r rest ih =>
    intro db i hi
    obtain ⟨b, now, ok⟩ := r
    simp only [assignedIds, List.mem_cons] at hi
    rcases hi with h | h
    · rw [h, get_next_fst]
      omega
    · have hlt := ih _ i h
      rw [curSeq_add_bottle] at hlt
      omega

/-- The ids issued across a run of creations are strictly sorted. -/
theorem assignedIds_pairwise (reqs : List (BottleIn × String × Bool)) :
    ∀ db : DB, (assignedIds reqs db).Pairwise (· < ·) := by
  induction reqs with
  | nil => intro db; simp [assignedIds]
  | cons r rest ih =>
    intro db
    obtain ⟨b, now, ok⟩ := r
    rw [assignedIds, List.pairwise_cons]
    refine ⟨?_, ih _⟩
    intro i hi
    have hlt := assignedIds_lt rest _ i hi
    rw [curSeq_add_bottle] at hlt
    rw [get_next_fst]
    omega

/-! ### Claims -/

/-- C1: across any sequence of creation requests the ids handed out by the
Sequence Allocator are strictly increasing in issuance order, hence pairwise
distinct; and a successful creation's externally visible `bottle_id` is
exactly the id the allocator issued for it. -/
theorem C1_ids_strictly_increasing (reqs : List (BottleIn × String × Bool))
    (db : DB) (b : BottleIn) (now : String) :
    List.Chain' (· < ·) (assignedIds reqs db) ∧
    (assignedIds reqs db).Nodup ∧
    bidOf (add_bottle b now true db).1 =
      some ((get_next_sequence_value "bottle_id" db).1) := by
  refine ⟨(assignedIds_pairwise reqs db).chain', ?_, ?_⟩
  · exact (assignedIds_pairwise reqs db).imp (fun h => Nat.ne_of_lt h)
  · unfold add_bottle bidOf
    simp [BottleOut.from_mongo_dict]

/-- C3: `get_next_sequence_value` creates a missing counter with value 1 in
the same operation that returns it, and always returns the post-increment
value, storing it back. -/
theorem C3_next_sequence_value (name : String) (db : DB) :
    (db.counters.lookup name = none →
      (get_next_sequence_value name db).1 = 1 ∧
      (get_next_sequence_value name db).2.counters.lookup name = some 1) ∧
    (∀ v, db.counters.lookup name = some v →
      (get_next_sequence_value name db).1 = v + 1 ∧
      (get_next_sequence_value name db).2.counters.lookup name = some (v + 1)) := by
  constructor
  · intro h
    unfold get_next_sequence_value
    simp [h, List.lookup]
  · intro v h
    unfold get_next_sequence_value
    simp [h]
    exact lookup_setSeq name (v + 1) db.counters (by simp [h])

/-- Witness for C3: on the empty store the allocator returns 1 and stores 1;
on a store whose counter reads 2 it returns 3 and stores 3. -/
theorem C3_next_sequence_value_witness :
    (db0.counters.lookup "bottle_id" = none ∧
      (get_next_sequence_value "bottle_id" db0).1 = 1 ∧
      (get_next_sequence_value "bottle_id" db0).2.counters.lookup "bottle_id" = some 1) ∧
    (db1.counters.lookup "bottle_id" = some 2 ∧
      (get_next_sequence_value "bottle_id" db1).1 = 3 ∧
      (get_next_sequence_value "bottle_id" db1).2.counters.lookup "bottle_id" = some 3) :=
  ⟨⟨by decide, (C3_next_sequence_value "bottle_id" db0).1 (by decide)⟩,
   ⟨by decide, (C3_next_sequence_value "bottle_id" db1).2 2 (by decide)⟩⟩

/-- C9: when the allocation succeeds but the insert fails, the creation
reports HTTP 500, no record is persisted, the counter stays advanced, and the
skipped id is smaller than every id issued by any later run of creations. -/
theorem C9_insert_failure_skips_id (b : BottleIn) (now : String) (db : DB) :
    (add_bottle b now false db).1 = Except.error 500 ∧
    (add_bottle b now false db).2.bottles = db.bottles ∧
    curSeq (add_bottle b now false db).2 "bottle_id" =
      (get_next_sequence_value "bottle_id" db).1 ∧
    ∀ reqs i, i ∈ assignedIds reqs (add_bottle b now false db).2 →
      (get_next_sequence_value "bottle_id" db).1 < i := by
  refine ⟨?_, ?_, ?_, ?_⟩
  · unfold add_bottle; simp
  · unfold add_bottle
    simp
    exact (get_next_state "bottle_id" db).1
  · rw [curSeq_add_bottle, get_next_fst]
  · intro reqs i hi
    have h := assignedIds_lt reqs _ i hi
    rw [curSeq_add_bottle] at h
    rw [get_next_fst]
    omega

/-- Witness for C9: after a failed insert on the empty store the skipped id 1
is below the id 2 that the next creation receives. -/
theorem C9_insert_failure_skips_id_witness :
    2 ∈ assignedIds [(bIn1, "t2", true)] (add_bottle bIn1 "t1" false db0).2 ∧
    (get_next_sequence_value "bottle_id" db0).1 < 2 :=
  ⟨by decide,
   (C9_insert_failure_skips_id bIn1 "t1" db0).2.2.2 [(bIn1, "t2", true)] 2 (by decide)⟩

/-! ### Lemmas about the claim selector -/

/-- A sampled document comes from the sampled list. -/
theorem sample1_mem (c : Nat) (l : List BottleDoc) (d : BottleDoc)
    (h : sample1 c l = some d) : d ∈ l :=
  List.getElem?_mem h

/-- Unfolding the `$match` predicate. -/
theorem eligible_spec (s : String) (d : BottleDoc) (h : eligible s d = true) :
    d.picked = false ∧ d.sender_id ≠ s := by
  unfold eligible at h
  simp only [Bool.and_eq_true, Bool.not_eq_eq_eq_not, Bool.not_true, bne_iff_ne,
    ne_eq] at h
  exact ⟨h.1, h.2⟩

/-- A successful pick returns a snapshot that was unclaimed and not authored
by the requester. -/
theorem pick_ok_spec (s : String) (c : Nat) (db : DB) (out : BottleOut)
    (h : (pick_random_bottle s c db).1 = Except.ok out) :
    out.picked = false ∧ out.sender_id ≠ s := by
  unfold pick_random_bottle at h
  cases hs : sample1 c (db.bottles.filter (eligible s)) with
  | none => rw [hs] at h; cases h
  | some doc =>
    rw [hs] at h
    have hdoc : BottleOut.from_mongo_dict doc = out := by
      simpa using h
    have hf := List.mem_filter.mp (sample1_mem _ _ _ hs)
    have he := eligible_spec s doc hf.2
    rw [← hdoc]
    exact ⟨he.1, he.2⟩

/-- The only error a pick itself raises is 404. -/
theorem pick_error_404 (s : String) (c : Nat) (db : DB) (e : Nat)
    (h : (pick_random_bottle s c db).1 = Except.error e) : e = 404 := by
  unfold pick_random_bottle at h
  cases hs : sample1 c (db.bottles.filter (eligible s)) with
  | none =>
    rw [hs] at h
    simpa using h.symm
  | some doc => rw [hs] at h; cases h

/-- C2: every record a claim request returns satisfies the eligibility filter
(unclaimed and not authored by the requester); when every unclaimed record is
the requester's own, the request yields NotFound (404). -/
theorem C2_pick_respects_filter (s : String) (c : Nat) (db : DB) :
    (match (pick_random_bottle s c db).1 with
     | Except.ok out => out.picked = false ∧ out.sender_id ≠ s
     | Except.error e => e = 404) ∧
    ((∀ d ∈ db.bottles, d.picked = false → d.sender_id = s) →
      (pick_random_bottle s c db).1 = Except.error 404) := by
  constructor
  · cases hr : (pick_random_bottle s c db).1 with
    | ok out => exact pick_ok_spec s c db out hr
    | error e => exact pick_error_404 s c db e hr
  · intro hall
    unfold pick_random_bottle
    cases hs : sample1 c (db.bottles.filter (eligible s)) with
    | none => rfl
    | some doc =>
      have hf := List.mem_filter.mp (sample1_mem _ _ _ hs)
      have he := eligible_spec s doc hf.2
      exact absurd (hall doc hf.1 he.1) he.2

/-- Witness for C2: in `db1` the only unclaimed bottle was sent by `u1`, so a
claim request from `u1` gets 404. -/
theorem C2_pick_respects_filter_witness :
    (∀ d ∈ db1.bottles, d.picked = false → d.sender_id = "u1") ∧
    (pick_random_bottle "u1" 3 db1).1 = Except.error 404 :=
  ⟨by decide, (C2_pick_respects_filter "u1" 3 db1).2 (by decide)⟩

/-- C5: with no eligible record a claim request returns 404 and leaves the
store exactly as it was. -/
theorem C5_empty_eligible_notfound (s : String) (c : Nat) (db : DB)
    (h : db.bottles.filter (eligible s) = []) :
    (pick_random_bottle s c db).1 = Except.error 404 ∧
    (pick_random_bottle s c db).2 = db := by
  unfold pick_random_bottle
  rw [h]
  exact ⟨rfl, rfl⟩

/-- Witness for C5: `db1` has no bottle eligible for `u1`; the pick 404s and
the state is untouched. -/
theorem C5_empty_eligible_notfound_witness :
    db1.bottles.filter (eligible "u1") = [] ∧
    (pick_random_bottle "u1" 0 db1).1 = Except.error 404 ∧
    (pick_random_bottle "u1" 0 db1).2 = db1 :=
  ⟨by decide, C5_empty_eligible_notfound "u1" 0 db1 (by decide)⟩

/-- C6: the mark step targets the record by its storage `_id` alone and sets
`picked := true` unconditionally — the record's current `picked` value (here
arbitrary, including already `true`) is never consulted, and the update still
succeeds, leaving every other record untouched. -/
theorem C6_mark_is_unconditional (d : BottleDoc) (pre post : List BottleDoc)
    (h : ∀ e ∈ pre, e.oid ≠ d.oid) :
    update_one_set_picked d.oid (pre ++ d :: post) =
      pre ++ { d with picked := true } :: post := by
  induction pre with
  | nil => simp [update_one_set_picked]
  | cons a as ih =>
    have ha : a.oid ≠ d.oid := h a (List.mem_cons_self a as)
    simp only [List.cons_append, update_one_set_picked, if_neg ha,
      List.cons.injEq]
    exact ⟨trivial, ih (fun e he => h e (List.mem_cons_of_mem a he))⟩

/-- Witness for C6: applying the mark to the already-claimed `bottleP` still
succeeds and simply re-asserts `picked = true`. -/
theorem C6_mark_is_unconditional_witness :
    (∀ e ∈ [bottleA], e.oid ≠ bottleP.oid) ∧
    update_one_set_picked bottleP.oid ([bottleA] ++ bottleP :: []) =
      [bottleA] ++ { bottleP with picked := true } :: [] :=
  ⟨by decide, C6_mark_is_unconditional bottleP [bottleA] [] (by decide)⟩

/-! ### Lemmas for the monotonicity of the claimed flag -/

/-- The mark update leaves every position holding either the old document or
the old document with `picked` set. -/
theorem update_one_getElem (oid : Nat) :
    ∀ (l : List BottleDoc) (i : Nat) (d : BottleDoc), l[i]? = some d →
      (update_one_set_picked oid l)[i]? = some d ∨
      (update_one_set_picked oid l)[i]? = some { d with picked := true } := by
  intro l
  induction l with
  | nil => intro i d h; simp at h
  | cons a as ih =>
    intro i d h
    by_cases ha : a.oid = oid
    · simp only [update_one_set_picked, if_pos ha]
      cases i with
      | zero =>
        rw [List.getElem?_cons_zero] at h
        injection h with h
        subst h
        right
        exact List.getElem?_cons_zero
      | succ n =>
        rw [List.getElem?_cons_succ] at h
        left
        rw [List.getElem?_cons_succ]
        exact h
    · simp only [update_one_set_picked, if_neg ha]
      cases i with
      | zero =>
        rw [List.getElem?_cons_zero] at h ⊢
        left
        exact h
      | succ n =>
        rw [List.getElem?_cons_succ] at h ⊢
        exact ih n d h

/-- A creation never disturbs a document already in the collection. -/
theorem add_bottle_getElem (b : BottleIn) (now : String) (ok : Bool) (db : DB)
    (i : Nat) (d : BottleDoc) (h : db.bottles[i]? = some d) :
    (add_bottle b now ok db).2.bottles[i]? = some d := by
  have hb := (get_next_state "bottle_id" db).1
  have hlt : i < db.bottles.length := (List.getElem?_eq_some.mp h).1
  unfold add_bottle
  cases ok with
  | false => simpa [hb] using h
  | true =>
    simp only [if_pos]
    rw [List.getElem?_append, hb]
    simp [hlt, h]

/-- C4: the claimed flag is monotone — a document whose `picked` is `true`
keeps `picked = true` (same `_id`, same `bottle_id`, same position) under
every operation of the service — and no claim request ever returns the
snapshot of an already-claimed record. -/
theorem C4_claimed_monotone_never_returned (op : Op) (s : String) (c : Nat)
    (db : DB) (i : Nat) (d : BottleDoc)
    (h1 : db.bottles[i]? = some d) (h2 : d.picked = true) :
    (∃ d', (step op db).bottles[i]? = some d' ∧ d'.picked = true ∧
      d'.oid = d.oid ∧ d'.bottle_id = d.bottle_id) ∧
    (match (pick_random_bottle s c db).1 with
     | Except.ok out => out ≠ BottleOut.from_mongo_dict d
     | Except.error _ => True) := by
  constructor
  · cases op with
    | add b now ok =>
      exact ⟨d, add_bottle_getElem b now ok db i d h1, h2, rfl, rfl⟩
    | pick s' c' =>
      show ∃ d', (pick_random_bottle s' c' db).2.bottles[i]? = some d' ∧
        d'.picked = true ∧ d'.oid = d.oid ∧ d'.bottle_id = d.bottle_id
      unfold pick_random_bottle
      cases hs : sample1 c' (db.bottles.filter (eligible s')) with
      | none => exact ⟨d, h1, h2, rfl, rfl⟩
      | some doc =>
        rcases update_one_getElem doc.oid db.bottles i d h1 with h | h
        · exact ⟨d, h, h2, rfl, rfl⟩
        · exact ⟨{ d with picked := true }, h, rfl, rfl, rfl⟩
    | alloc name =>
      show ∃ d', (get_next_sequence_value name db).2.bottles[i]? = some d' ∧
        d'.picked = true ∧ d'.oid = d.oid ∧ d'.bottle_id = d.bottle_id
      rw [(get_next_state name db).1]
      exact ⟨d, h1, h2, rfl, rfl⟩
    | count => exact ⟨d, h1, h2, rfl, rfl⟩
  · cases hr : (pick_random_bottle s c db).1 with
    | ok out =>
      have hspec := pick_ok_spec s c db out hr
      intro heq
      have : out.picked = d.picked := by rw [heq]; rfl
      rw [hspec.1, h2] at this
      cases this
    | error e => trivial

/-- Witness for C4: in `db1` the claimed `bottleP` (position 1) stays claimed
across a read-only step, and a pick by a third user cannot return it. -/
theorem C4_claimed_monotone_never_returned_witness :
    db1.bottles[1]? = some bottleP ∧ bottleP.picked = true ∧
    ((∃ d', (step Op.count db1).bottles[1]? = some d' ∧ d'.picked = true ∧
        d'.oid = bottleP.oid ∧ d'.bottle_id = bottleP.bottle_id) ∧
      (match (pick_random_bottle "u9" 0 db1).1 with
       | Except.ok out => out ≠ BottleOut.from_mongo_dict bottleP
       | Except.error _ => True)) :=
  ⟨by decide, rfl,
   C4_claimed_monotone_never_returned Op.count "u9" 0 db1 1 bottleP (by decide) rfl⟩

/-- C7: the active count is exactly the number of records whose claimed flag
is false — together with the claimed records it exhausts the collection (so
claimed records are not counted at all), and it is at least the size of any
requester's eligible set (so no sender is excluded from the count). -/
theorem C7_count_unclaimed (db : DB) (s : String) :
    get_active_bottle_counts db =
      (db.bottles.filter (fun d => !d.picked)).length ∧
    get_active_bottle_counts db +
      (db.bottles.filter (fun d => d.picked)).length = db.bottles.length ∧
    (db.bottles.filter (eligible s)).length ≤ get_active_bottle_counts db := by
  refine ⟨rfl, ?_, ?_⟩
  · have h : db.bottles.length =
        (db.bottles.filter (fun d => d.picked)).length +
        (db.bottles.filter (fun d => !d.picked)).length :=
      List.length_eq_length_filter_add _
    unfold get_active_bottle_counts
    omega
  · refine List.Sublist.length_le (List.monotone_filter_right db.bottles ?_)
    intro d hd
    have := eligible_spec s d hd
    simp [this.1]

/-! ### Lemmas for the opacity of the storage id -/

/-- The `$match` filter never reads the storage `_id`. -/
theorem filter_map_setOid (s : String) (f : Nat → Nat) :
    ∀ l : List BottleDoc,
      (l.map (fun d => { d with oid := f d.oid })).filter (eligible s) =
        (l.filter (eligible s)).map (fun d => { d with oid := f d.oid }) := by
  intro l
  induction l with
  | nil => rfl
  | cons a as ih =>
    simp only [List.map_cons, List.filter_cons]
    have hae : eligible s { a with oid := f a.oid } = eligible s a := rfl
    rw [hae]
    by_cases ha : eligible s a = true
    · simp [ha, ih]
    · simp [ha, ih]

/-- Sampling commutes with remapping the storage ids. -/
theorem sample1_map_setOid (c : Nat) (f : Nat → Nat) (l : List BottleDoc) :
    sample1 c (l.map (fun d => { d with oid := f d.oid })) =
      (sample1 c l).map (fun d => { d with oid := f d.oid }) := by
  unfold sample1
  rw [List.length_map, List.getElem?_map]

/-- C10: the storage-assigned internal identity never reaches a response:
the response builder is invariant under changing a document's `_id`, a
creation's response does not depend on which `_id` the store will assign,
and a pick's response is unchanged when every stored `_id` is remapped. -/
theorem C10_internal_id_not_exposed (d : BottleDoc) (o : Nat) (b : BottleIn)
    (now : String) (ok : Bool) (s : String) (c : Nat) (db : DB)
    (f : Nat → Nat) (m : Nat) :
    BottleOut.from_mongo_dict { d with oid := o } = BottleOut.from_mongo_dict d ∧
    (add_bottle b now ok { db with nextOid := m }).1 = (add_bottle b now ok db).1 ∧
    (pick_random_bottle s c (mapOids f db)).1 = (pick_random_bottle s c db).1 := by
  refine ⟨rfl, ?_, ?_⟩
  · unfold add_bottle get_next_sequence_value
    cases h : db.counters.lookup "bottle_id" <;> cases ok <;>
      simp [BottleOut.from_mongo_dict]
  · unfold pick_random_bottle mapOids
    simp only
    rw [filter_map_setOid, sample1_map_setOid]
    cases hs : sample1 c (db.bottles.filter (eligible s)) with
    | none => rfl
    | some doc => rfl

/-- Truthiness of environment variables, and the module-load validation
passing with the collection name simultaneously absent: the `not` guards of
lines 18-21 cover only `MONGO_URI` and `DATABASE_NAME`. -/
theorem C8_missing_collection_name_not_checked :
    truthy none = false ∧
    checkConfig (some "mongodb://localhost:27017") (some "driftdb") none =
      Except.ok () := by
  constructor
  · rfl
  · rfl

/-- C8 (amended): startup validation errors exactly when the connection
string or the database name is falsy, and its outcome is entirely
independent of the collection-name setting. -/
theorem C8_config_check_scope (m d c cc : Option String) :
    (checkConfig m d c = Except.ok () ↔ truthy m = true ∧ truthy d = true) ∧
    checkConfig m d c = checkConfig m d cc := by
  unfold checkConfig
  cases truthy m <;> cases truthy d <;> simp

end DriftBottles
